import Mathlib

/-!
Shallow embedding of `tap_hubspot/client.py` (HubSpot singer tap REST
client): the pagination policy, request-payload builder, record
projector, property-list fetcher and batch writer, with theorems
checking the natural-language specification against the code.

Python dicts are modelled as ordered association lists
`List (String × Json)` (insertion order preserved, first binding wins
on lookup, assignment replaces in place or appends).  Python
exceptions are modelled with `Except PyErr`.
-/

namespace TapHubspot

/-- Python exception classes that the embedded code can raise. -/
inductive PyErr where
  | keyError (k : String)
  | typeError
  | valueError
  | attributeError
  | runtimeError (msg : String)
deriving DecidableEq, Repr

/-- Model of the calendar datetime objects produced by
`dateutil.parser.parse` on the ISO-8601-like strings HubSpot returns
(fractional seconds kept at millisecond precision). -/
structure PyDatetime where
  year : Nat
  month : Nat
  day : Nat
  hour : Nat
  minute : Nat
  second : Nat
  millis : Nat
deriving DecidableEq, Repr

/-- JSON-ish values stored in a record dict.  `date` is not JSON: it is
the Python `datetime` object that `post_process` writes back into the
row for the replication key. -/
inductive Json where
  | null
  | bool (b : Bool)
  | num (n : Int)
  | str (s : String)
  | arr (xs : List Json)
  | obj (kvs : List (String × Json))
  | date (dt : PyDatetime)
deriving Repr

/-- Dict lookup, `row[k]` / `k in row`: first binding wins. -/
def pyLookup : List (String × Json) → String → Option Json
  | [], _ => none
  | (k', v) :: rest, k => if k' = k then some v else pyLookup rest k

/-- `k in row` as a Bool. -/
def hasKey (row : List (String × Json)) (k : String) : Bool :=
  (pyLookup row k).isSome

/-- Dict assignment `row[k] = v`: replaces the first binding of `k` in
place, or appends a new binding (CPython insertion-order semantics). -/
def dictSet : List (String × Json) → String → Json → List (String × Json)
  | [], k, v => [(k, v)]
  | (k', v') :: rest, k, v =>
    if k' = k then (k, v) :: rest else (k', v') :: dictSet rest k v

/-- Digits of a decimal numeral, or `none` if empty or non-digit. -/
def digitsToNat : List Char → Option Nat
  | [] => none
  | cs =>
    if cs.all (fun c => c.isDigit) then
      some (cs.foldl (fun a c => a * 10 + (c.toNat - 48)) 0)
    else none

/-- Model of Python `int(s)` on a cursor string: an optional sign
followed by decimal digits; anything else raises `ValueError`
(returned as `none`). -/
def pythonInt (s : String) : Option Int :=
  match s.data with
  | '-' :: rest => (digitsToNat rest).map (fun n => -(n : Int))
  | '+' :: rest => (digitsToNat rest).map (fun n => (n : Int))
  | cs => (digitsToNat cs).map (fun n => (n : Int))

/-- `singer_sdk.streams.core.REPLICATION_INCREMENTAL`. -/
def REPLICATION_INCREMENTAL : String := "INCREMENTAL"

/-- `HubspotJSONPathPaginator.get_next`.  `matches` is the list of
nodes extracted by the JSONPath `$.paging.next.after` from the decoded
response body; the code takes the first match (or `None`).  `int` of a
non-integer (or of `None`) raises, which the code catches and ignores,
leaving the token unchanged. -/
def get_next (forced_get : Bool) (replication_method : String)
    (test : Bool) (allMatches : List String) : Option String :=
  if test then none
  else
    match allMatches.head? with
    | none => none
    | some t =>
      match pythonInt t with
      | none => some t
      | some n =>
        if !forced_get ∧ replication_method = REPLICATION_INCREMENTAL
            ∧ n + 100 ≥ 10000 then
          none
        else some t

/-- Days since the Unix epoch of a civil date (proleptic Gregorian
calendar), the standard days-from-civil computation used to give
`PyDatetime` a numeric timestamp. -/
def daysFromCivil (y m d : Int) : Int :=
  let y' := if m ≤ 2 then y - 1 else y
  let era := (if y' ≥ 0 then y' else y' - 399) / 400
  let yoe := y' - era * 400
  let mp := (m + 9) % 12
  let doy := (153 * mp + 2) / 5 + d - 1
  let doe := yoe * 365 + yoe / 4 - yoe / 100 + doy
  era * 146097 + doe - 719468

/-- `dt.timestamp()` in whole seconds, the datetime read as UTC. -/
def timestampSec (dt : PyDatetime) : Int :=
  daysFromCivil dt.year dt.month dt.day * 86400
    + dt.hour * 3600 + dt.minute * 60 + dt.second

/-- `int(dt.timestamp() * 1000)`: epoch milliseconds. -/
def timestampMillis (dt : PyDatetime) : Int :=
  timestampSec dt * 1000 + dt.millis

/-- Split a character list at every occurrence of the separator
(like `str.split(sep)`: empty groups kept). -/
def splitOnChar (c : Char) : List Char → List (List Char)
  | [] => [[]]
  | x :: xs =>
    if x = c then [] :: splitOnChar c xs
    else
      match splitOnChar c xs with
      | [] => [[x]]
      | g :: gs => (x :: g) :: gs

/-- Parse `"YYYY-MM-DD"`. -/
def parseDatePart (cs : List Char) : Option (Nat × Nat × Nat) :=
  match (splitOnChar '-' cs).map digitsToNat with
  | [some y, some m, some d] =>
    if 1 ≤ m ∧ m ≤ 12 ∧ 1 ≤ d ∧ d ≤ 31 then some (y, m, d) else none
  | _ => none

/-- Parse `"HH:MM:SS"` or `"HH:MM:SS.fff"`, optionally `Z`-suffixed,
returning (hour, minute, second, milliseconds). -/
def parseTimePart (cs : List Char) : Option (Nat × Nat × Nat × Nat) :=
  let cs := if cs.getLast? = some 'Z' then cs.dropLast else cs
  match splitOnChar ':' cs with
  | [hh, mm, ss] =>
    let secMs : Option (Nat × Nat) :=
      match splitOnChar '.' ss with
      | [sec] => (digitsToNat sec).map (fun n => (n, 0))
      | [sec, frac] =>
        match digitsToNat sec, digitsToNat ((frac ++ ['0', '0', '0']).take 3) with
        | some n, some f => some (n, f)
        | _, _ => none
      | _ => none
    match digitsToNat hh, digitsToNat mm, secMs with
    | some h, some mi, some (sec, ms) =>
      if h ≤ 23 ∧ mi ≤ 59 ∧ sec ≤ 59 then some (h, mi, sec, ms) else none
    | _, _, _ => none
  | _ => none

/-- Model of `dateutil.parser.parse` restricted to the ISO-8601-like
strings this tap feeds it: a date, optionally followed by
`T<time>[.fff][Z]`.  `none` models the `ParserError` raised on any
other string. -/
def parseDatetime (s : String) : Option PyDatetime :=
  match splitOnChar 'T' s.data with
  | [d] =>
    (parseDatePart d).map (fun p => ⟨p.1, p.2.1, p.2.2, 0, 0, 0, 0⟩)
  | [d, t] =>
    match parseDatePart d, parseTimePart t with
    | some p, some q =>
      some ⟨p.1, p.2.1, p.2.2, q.1, q.2.1, q.2.2.1, q.2.2.2⟩
    | _, _ => none
  | _ => none

/-- The recognized configuration options (§6 of the tap's docs). -/
structure Config where
  hapikey : Option String := none
  limit : Option Nat := none
  batch_size : Option Nat := none
  start_from : Option String := none
  user_agent : Option String := none
  test : Bool := false

/-- `HubSpotStream.rest_method`: POST for incremental non-forced
streams (search endpoint), GET otherwise. -/
def rest_method (forced_get : Bool) (replication_method : String) : String :=
  if !forced_get ∧ replication_method = REPLICATION_INCREMENTAL then "POST"
  else "GET"

/-- The checkpoint fallback chain of `prepare_request_payload`:
`get_starting_timestamp` state first, else the `start_from` config
option parsed with `dateutil`.  A parse failure lands in the `except`
branch, whose `logging.error(..., file=sys.stderr)` call itself raises
`TypeError` (`file` is not a keyword accepted by `logging.error`), so
the failure propagates instead of being swallowed by the `pass`. -/
def resolveStartingValue (cfg : Config) (checkpoint : Option PyDatetime) :
    Except PyErr (Option PyDatetime) :=
  match checkpoint with
  | some v => .ok (some v)
  | none =>
    match cfg.start_from with
    | none => .ok none
    | some s =>
      if s = "" then .ok none
      else
        match parseDatetime s with
        | some v => .ok (some v)
        | none => .error PyErr.typeError

/-- The `filterGroups` value built from a starting replication value. -/
def filterGroupsJson (replication_key : String) (v : PyDatetime) : Json :=
  Json.arr [Json.obj [("filters", Json.arr [Json.obj
    [("propertyName", Json.str replication_key),
     ("operator", Json.str "GTE"),
     ("value", Json.num (timestampMillis v))]])]]

/-- The POST body dict of `prepare_request_payload`, keys in insertion
order: `sorts` and the literal `limit: 100`, then `properties` if the
resolved property list is truthy (non-empty), `after` if the token is
truthy (non-`None`, non-empty), `filterGroups` if a starting value was
resolved. -/
def searchBody (replication_key : String) (props : List String)
    (token : Option String) (starting : Option PyDatetime) :
    List (String × Json) :=
  [("sorts", Json.arr [Json.obj
      [("propertyName", Json.str replication_key),
       ("direction", Json.str "ASCENDING")]]),
   ("limit", Json.num 100)]
  ++ (if props = [] then [] else [("properties", Json.arr (props.map Json.str))])
  ++ (match token with
      | none => []
      | some t => if t = "" then [] else [("after", Json.str t)])
  ++ (match starting with
      | none => []
      | some v => [("filterGroups", filterGroupsJson replication_key v)])

/-- `HubSpotStream.prepare_request_payload`.  `checkpoint` is the
orchestrator-supplied `get_starting_timestamp(context)`; `props` is
the resolved `get_properties()` list.  Returns `.ok none` (no body)
for forced-GET or non-incremental streams. -/
def prepare_request_payload (forced_get : Bool) (replication_method : String)
    (replication_key : String) (cfg : Config) (checkpoint : Option PyDatetime)
    (props : List String) (token : Option String) :
    Except PyErr (Option Json) :=
  if forced_get ∨ replication_method ≠ REPLICATION_INCREMENTAL then .ok none
  else
    match resolveStartingValue cfg checkpoint with
    | .error e => .error e
    | .ok starting =>
      .ok (some (Json.obj (searchBody replication_key props token starting)))

/-- One hex digit, lowercase (as CPython's `json` emits). -/
def hexDigit (n : Nat) : Char :=
  if n < 10 then Char.ofNat (48 + n) else Char.ofNat (87 + (n % 16))

/-- Four-digit lowercase hex, for `\uXXXX` escapes. -/
def hex4 (n : Nat) : String :=
  String.mk [hexDigit (n / 4096 % 16), hexDigit (n / 256 % 16),
             hexDigit (n / 16 % 16), hexDigit (n % 16)]

/-- `json.dumps` escaping of one character inside a string literal
(default `ensure_ascii=True`: control and non-ASCII characters become
`\uXXXX`). -/
def escapeChar (c : Char) : String :=
  if c = '"' then "\\\""
  else if c = '\\' then "\\\\"
  else if c = '\n' then "\\n"
  else if c = '\t' then "\\t"
  else if c = '\r' then "\\r"
  else if c.toNat < 32 ∨ c.toNat > 126 then "\\u" ++ hex4 c.toNat
  else String.mk [c]

/-- A JSON string literal as `json.dumps` renders it. -/
def dumpStr (s : String) : String :=
  "\"" ++ String.join (s.data.map escapeChar) ++ "\""

mutual

/-- Model of Python `json.dumps` with its default separators
(`", "` between items, `": "` after keys) and default key order
(insertion order, `sort_keys=False`).  The `date` constructor never
occurs in raw decoded JSON, so its rendering is never exercised by the
serialization paths. -/
def jsonDumps : Json → String
  | .null => "null"
  | .bool true => "true"
  | .bool false => "false"
  | .num n => toString n
  | .str s => dumpStr s
  | .arr xs => "[" ++ dumpArr xs ++ "]"
  | .obj kvs => "\x7b" ++ dumpObj kvs ++ "\x7d"
  | .date _ => ""

/-- Comma-space-joined array elements. -/
def dumpArr : List Json → String
  | [] => ""
  | [x] => jsonDumps x
  | x :: y :: xs => jsonDumps x ++ ", " ++ dumpArr (y :: xs)

/-- Comma-space-joined `"key": value` pairs. -/
def dumpObj : List (String × Json) → String
  | [] => ""
  | [(k, v)] => dumpStr k ++ ": " ++ jsonDumps v
  | (k, v) :: p :: xs => dumpStr k ++ ": " ++ jsonDumps v ++ ", " ++ dumpObj (p :: xs)

end

/-- `HubSpotStream.get_replication_key_value`: `None` when no
replication key is set or the row has no `properties` entry; otherwise
`parse_datetime(row["properties"][key])`, which raises `KeyError` when
the key is absent from the properties dict, `TypeError` when
`properties` is not a dict (or the value is not a string), and a
`ParserError` when the string does not parse. -/
def get_replication_key_value (replication_key : Option String)
    (row : List (String × Json)) : Except PyErr (Option PyDatetime) :=
  match replication_key with
  | none => .ok none
  | some k =>
    match pyLookup row "properties" with
    | none => .ok none
    | some (.obj props) =>
      match pyLookup props k with
      | none => .error (PyErr.keyError k)
      | some (.str s) =>
        match parseDatetime s with
        | some dt => .ok (some dt)
        | none => .error PyErr.valueError
      | some _ => .error PyErr.typeError
    | some _ => .error PyErr.typeError

/-- The value written to the top-level replication-key field. -/
def replicationJson : Option PyDatetime → Json
  | none => Json.null
  | some dt => Json.date dt

/-- `HubSpotStream.post_process`: lift the replication-key value to
the top level, then replace the `properties` and `associations`
entries (when present) by their `json.dumps` text. -/
def post_process (replication_key : Option String)
    (row : List (String × Json)) : Except PyErr (List (String × Json)) :=
  match (match replication_key with
         | none => Except.ok row
         | some k =>
           (get_replication_key_value (some k) row).map
             (fun v => dictSet row k (replicationJson v))) with
  | .error e => .error e
  | .ok row1 =>
    let row2 :=
      match pyLookup row1 "properties" with
      | some p => dictSet row1 "properties" (Json.str (jsonDumps p))
      | none => row1
    let row3 :=
      match pyLookup row2 "associations" with
      | some a => dictSet row2 "associations" (Json.str (jsonDumps a))
      | none => row2
    .ok row3

/-- The HTTP response seen by `get_properties`: status code, raw body
text, and the `name` fields of the decoded `$.results[*]` nodes. -/
structure PropsResponse where
  status : Nat
  text : String
  names : List String

/-- Outcome of one `get_properties` call: the returned list or the
raised error, the `extra_properties` cache afterwards, and whether an
HTTP request was sent. -/
structure GetPropsResult where
  outcome : Except PyErr (List String)
  cache : Option (List String)
  requested : Bool
deriving Repr

/-- The `RuntimeError` message raised on a failed property listing:
`f"Could not fetch properties: \x7br.status_code\x7d, \x7br.text\x7d"`. -/
def propsErrorMsg (status : Nat) (text : String) : String :=
  "Could not fetch properties: " ++ toString status ++ ", " ++ text

/-- `HubSpotStream.get_properties`.  `cache` is the current
`extra_properties` field (memo), `objType` the stream's
`properties_object_type` (falsy when `None` or empty), `resp` the
response the transport would return if a request is sent.  On a
non-200 status a `RuntimeError` is raised before the cache is written. -/
def get_properties (objType : Option String) (cache : Option (List String))
    (resp : PropsResponse) : GetPropsResult :=
  match cache with
  | some ps => ⟨.ok ps, some ps, false⟩
  | none =>
    match objType with
    | none => ⟨.ok [], some [], false⟩
    | some t =>
      if t = "" then ⟨.ok [], some [], false⟩
      else if resp.status ≠ 200 then
        ⟨.error (PyErr.runtimeError (propsErrorMsg resp.status resp.text)),
         none, true⟩
      else ⟨.ok resp.names, some resp.names, true⟩

/-- The loop state of `HubSpotStream.get_batches`: `i` is the sequence
number embedded in the next filename, `chunkSize` the records written
to the currently open file, `current` the open gzip file's contents
(`none` when no file is open), `yields` the manifests yielded so far
as (sequence number, file record list), and `opened` the sequence
numbers for which a filename was generated and a file opened. -/
structure BatchState (α : Type) where
  i : Nat
  chunkSize : Nat
  current : Option (List α)
  yields : List (Nat × List α)
  opened : List Nat
deriving Repr

/-- The initial state of the `get_batches` loop. -/
def batchInit {α : Type} : BatchState α :=
  ⟨1, 0, none, [], []⟩

/-- One iteration of the `for record in ...` loop body: roll the full
file over (close, yield, reset), open a fresh file if none is open,
then write the record.  Calling `.close()` on `gz = None` would raise
`AttributeError`; that branch is reachable only with `batch_size = 0`. -/
def batchStep {α : Type} (batch_size : Nat) (st : BatchState α) (r : α) :
    Except PyErr (BatchState α) :=
  match (if st.chunkSize ≥ batch_size then
           match st.current with
           | none => Except.error PyErr.attributeError
           | some contents =>
             Except.ok { st with
               yields := st.yields ++ [(st.i, contents)]
               current := none
               i := st.i + 1
               chunkSize := 0 }
         else Except.ok st) with
  | .error e => .error e
  | .ok st =>
    let st :=
      match st.current with
      | none => { st with current := some [], opened := st.opened ++ [st.i] }
      | some _ => st
    .ok { st with
      current := st.current.map (fun c => c ++ [r])
      chunkSize := st.chunkSize + 1 }

/-- The loop of `get_batches` over the remaining records, followed by
the final-flush epilogue (`if chunk_size > 0`). -/
def batchRun {α : Type} (batch_size : Nat) :
    List α → BatchState α → Except PyErr (BatchState α)
  | [], st =>
    if st.chunkSize > 0 then
      match st.current with
      | none => .error PyErr.attributeError
      | some contents =>
        .ok { st with
          yields := st.yields ++ [(st.i, contents)]
          current := none }
    else .ok st
  | r :: rest, st =>
    match batchStep batch_size st r with
    | .error e => .error e
    | .ok st' => batchRun batch_size rest st'

/-- `HubSpotStream.get_batches` run over a record list: the manifests
yielded, in order, and the file-open log. -/
def get_batches {α : Type} (batch_size : Nat) (records : List α) :
    Except PyErr (BatchState α) :=
  batchRun batch_size records batchInit

/-- The record counts of the yielded batch files, in yield order. -/
def batchFileCounts {α : Type} (r : Except PyErr (BatchState α)) :
    Option (List Nat) :=
  match r with
  | .ok st => some (st.yields.map (fun p => p.2.length))
  | .error _ => none

/-- Whether a call completed without raising. -/
def exceptOk {ε α : Type} : Except ε α → Bool
  | .ok _ => true
  | .error _ => false

/-- Top-level lookup in the row a call returned (`none` on error). -/
def lookupOk (r : Except PyErr (List (String × Json))) (k : String) :
    Option Json :=
  match r with
  | .ok row => pyLookup row k
  | .error _ => none

lemma pyLookup_dictSet_self (row : List (String × Json)) (k : String) (v : Json) :
    pyLookup (dictSet row k v) k = some v := by
  induction row with
  | nil => simp [dictSet, pyLookup]
  | cons p rest ih =>
    rcases p with ⟨k', v'⟩
    by_cases h : k' = k
    · simp [dictSet, pyLookup, h]
    · simp [dictSet, pyLookup, h, ih]

lemma pyLookup_dictSet_ne (row : List (String × Json)) (k' k : String) (v : Json)
    (h : k' ≠ k) : pyLookup (dictSet row k' v) k = pyLookup row k := by
  induction row with
  | nil => simp [dictSet, pyLookup, h]
  | cons p rest ih =>
    rcases p with ⟨k₀, v₀⟩
    by_cases h₀ : k₀ = k'
    · subst h₀
      simp [dictSet, pyLookup, h]
    · simp [dictSet, pyLookup, h₀, ih]

lemma pyLookup_append (l₁ l₂ : List (String × Json)) (k : String) :
    pyLookup (l₁ ++ l₂) k =
      match pyLookup l₁ k with
      | some v => some v
      | none => pyLookup l₂ k := by
  induction l₁ with
  | nil => simp [pyLookup]
  | cons p rest ih =>
    rcases p with ⟨k₀, v₀⟩
    by_cases h : k₀ = k
    · simp [pyLookup, h]
    · simp [pyLookup, h, ih]

/-- Claim C1: for an incremental, non-forced-GET stream, a pagination token
parsing as an integer `n` with `n + 100 ≥ 10000` makes `get_next`
return `None` no matter what the payload offered, and a token with
`n + 100 < 10000` is returned unchanged (outside test mode). -/
theorem paginator_ceiling_get_next (test : Bool) (allMatches : List String)
    (t : String) (n : Int)
    (h1 : allMatches.head? = some t) (h2 : pythonInt t = some n) :
    (10000 ≤ n + 100 →
      get_next false REPLICATION_INCREMENTAL test allMatches = none) ∧
    (n + 100 < 10000 → test = false →
      get_next false REPLICATION_INCREMENTAL test allMatches = some t) := by
  constructor
  · intro hge
    cases test with
    | true => simp [get_next]
    | false => simp [get_next, h1, h2, hge]
  · intro hlt htf
    subst htf
    have : ¬ (10000 : Int) ≤ n + 100 := by omega
    simp [get_next, h1, h2, this]

/-- Witness for `paginator_ceiling_get_next` at the ceiling token
`"9900"` (nulled) and the safe token `"42"` (passed through). -/
theorem paginator_ceiling_get_next_witness :
    get_next false REPLICATION_INCREMENTAL false ["9900"] = none ∧
    get_next false REPLICATION_INCREMENTAL false ["42"] = some "42" :=
  ⟨(paginator_ceiling_get_next false ["9900"] "9900" 9900 rfl rfl).1
     (by omega),
   (paginator_ceiling_get_next false ["42"] "42" 42 rfl rfl).2
     (by omega) rfl⟩

/-- Claim C4: for a forced-GET or non-incremental stream, the request method
is GET and `prepare_request_payload` returns no body, so no
`filterGroups` filter is ever sent. -/
theorem full_table_get_no_body (forced_get : Bool) (replication_method : String)
    (replication_key : String) (cfg : Config) (checkpoint : Option PyDatetime)
    (props : List String) (token : Option String)
    (h : forced_get = true ∨ replication_method ≠ REPLICATION_INCREMENTAL) :
    rest_method forced_get replication_method = "GET" ∧
    prepare_request_payload forced_get replication_method replication_key
      cfg checkpoint props token = .ok none := by
  rcases h with h | h
  · subst h
    exact ⟨rfl, rfl⟩
  · constructor
    · simp [rest_method, h]
    · simp [prepare_request_payload, h]

/-- Witness for `full_table_get_no_body` at a forced-GET incremental
stream. -/
theorem full_table_get_no_body_witness :
    rest_method true REPLICATION_INCREMENTAL = "GET" ∧
    prepare_request_payload true REPLICATION_INCREMENTAL "hs_lastmodifieddate"
      {} none [] none = .ok none :=
  full_table_get_no_body true REPLICATION_INCREMENTAL "hs_lastmodifieddate"
    {} none [] none (Or.inl rfl)

/-- Claim C7: with `batch_size = 2` and five input records, `get_batches`
yields exactly three manifest entries whose files hold 2, 2 and 1
records in order, the final partial batch flushed at sequence end. -/
theorem batch_rollover_five_records {α : Type} (r1 r2 r3 r4 r5 : α) :
    get_batches 2 [r1, r2, r3, r4, r5] =
      .ok ⟨3, 1, none, [(1, [r1, r2]), (2, [r3, r4]), (3, [r5])], [1, 2, 3]⟩ ∧
    batchFileCounts (get_batches 2 [r1, r2, r3, r4, r5]) = some [2, 2, 1] :=
  ⟨rfl, rfl⟩

/-- Claim C8: nested `properties` and `associations` sub-objects are
replaced by their exact `json.dumps` text, insertion order kept. -/
theorem properties_associations_serialized :
    post_process none
      [("properties", Json.obj [("a", Json.num 1)]),
       ("associations", Json.obj [("b", Json.num 2)])] =
    .ok [("properties", Json.str "\x7b\"a\": 1\x7d"),
         ("associations", Json.str "\x7b\"b\": 2\x7d")] := rfl

/-- Claim C9: on an empty record sequence `get_batches` yields no manifest
entries, generates no filename and opens no file. -/
theorem get_batches_empty_input {α : Type} (batch_size : Nat) :
    get_batches batch_size ([] : List α) = .ok ⟨1, 0, none, [], []⟩ := rfl

lemma post_process_lookup (k : String) (row : List (String × Json))
    (v : Option PyDatetime) (hk1 : k ≠ "properties") (hk2 : k ≠ "associations")
    (hval : get_replication_key_value (some k) row = .ok v) :
    exceptOk (post_process (some k) row) = true ∧
    lookupOk (post_process (some k) row) k = some (replicationJson v) := by
  have hsel : pyLookup (dictSet row k (replicationJson v)) k
      = some (replicationJson v) := pyLookup_dictSet_self row k _
  dsimp only [post_process]
  rw [hval]
  dsimp only [Except.map]
  rcases hp : pyLookup (dictSet row k (replicationJson v)) "properties"
      with _ | p
  · rcases ha : pyLookup (dictSet row k (replicationJson v)) "associations"
        with _ | a
    · simp [hp, ha, exceptOk, lookupOk, hsel]
    · simp [hp, ha, exceptOk, lookupOk,
        pyLookup_dictSet_ne _ "associations" k _ (Ne.symm hk2), hsel]
  · rcases ha : pyLookup
        (dictSet (dictSet row k (replicationJson v)) "properties"
          (Json.str (jsonDumps p))) "associations" with _ | a
    · simp [hp, ha, exceptOk, lookupOk,
        pyLookup_dictSet_ne _ "properties" k _ (Ne.symm hk1), hsel]
    · simp [hp, ha, exceptOk, lookupOk,
        pyLookup_dictSet_ne _ "associations" k _ (Ne.symm hk2),
        pyLookup_dictSet_ne _ "properties" k _ (Ne.symm hk1), hsel]

/-- Claim C2, counterexample: when the `properties` sub-object is present but
lacks the replication key, `post_process` does not yield a null
top-level value — `row["properties"][key]` raises `KeyError`. -/
theorem post_process_missing_key_raises :
    post_process (some "lastmodifieddate")
      [("properties", Json.obj [("other", Json.str "x")])] =
      .error (PyErr.keyError "lastmodifieddate") := rfl

/-- Claim C2 (amended): with a replication key `k` distinct from the two
serialized fields, `post_process` copies the parsed datetime of
`row["properties"][k]` into the top-level field `k`; a row with no
`properties` entry gets a null top-level value and raises nothing;
but a `properties` dict lacking `k` raises `KeyError`. -/
theorem replication_key_lift (k : String) (row : List (String × Json))
    (hk1 : k ≠ "properties") (hk2 : k ≠ "associations") :
    (pyLookup row "properties" = none →
      exceptOk (post_process (some k) row) = true ∧
      lookupOk (post_process (some k) row) k = some Json.null) ∧
    (∀ (props : List (String × Json)) (s : String) (dt : PyDatetime),
      pyLookup row "properties" = some (Json.obj props) →
      pyLookup props k = some (Json.str s) → parseDatetime s = some dt →
      exceptOk (post_process (some k) row) = true ∧
      lookupOk (post_process (some k) row) k = some (Json.date dt)) ∧
    (∀ (props : List (String × Json)),
      pyLookup row "properties" = some (Json.obj props) →
      pyLookup props k = none →
      post_process (some k) row = .error (PyErr.keyError k)) := by
  refine ⟨fun h => ?_, fun props s dt h hp hdt => ?_, fun props h hp => ?_⟩
  · exact post_process_lookup k row none hk1 hk2
      (by simp [get_replication_key_value, h])
  · exact post_process_lookup k row (some dt) hk1 hk2
      (by simp [get_replication_key_value, h, hp, hdt])
  · have hval : get_replication_key_value (some k) row
        = .error (PyErr.keyError k) := by
      simp [get_replication_key_value, h, hp]
    dsimp only [post_process]
    rw [hval]
    rfl

/-- Witness for `replication_key_lift` at the spec's own example
record and key. -/
theorem replication_key_lift_witness :
    exceptOk (post_process (some "lastmodifieddate")
      [("properties", Json.obj
        [("lastmodifieddate", Json.str "2022-04-13T07:41:30.007Z")])]) = true ∧
    lookupOk (post_process (some "lastmodifieddate")
      [("properties", Json.obj
        [("lastmodifieddate", Json.str "2022-04-13T07:41:30.007Z")])])
      "lastmodifieddate" = some (Json.date ⟨2022, 4, 13, 7, 41, 30, 7⟩) :=
  (replication_key_lift "lastmodifieddate"
      [("properties", Json.obj
        [("lastmodifieddate", Json.str "2022-04-13T07:41:30.007Z")])]
      (by decide) (by decide)).2.1
    [("lastmodifieddate", Json.str "2022-04-13T07:41:30.007Z")]
    "2022-04-13T07:41:30.007Z" ⟨2022, 4, 13, 7, 41, 30, 7⟩ rfl rfl (by decide)

lemma searchBody_lookup (rk : String) (props : List String)
    (token : Option String) (starting : Option PyDatetime) :
    pyLookup (searchBody rk props token starting) "sorts" =
      some (Json.arr [Json.obj
        [("propertyName", Json.str rk),
         ("direction", Json.str "ASCENDING")]]) ∧
    pyLookup (searchBody rk props token starting) "limit" = some (Json.num 100) ∧
    (hasKey (searchBody rk props token starting) "after" = true ↔
      token ≠ none ∧ token ≠ some "") ∧
    (∀ t, token = some t → t ≠ "" →
      pyLookup (searchBody rk props token starting) "after" = some (Json.str t)) ∧
    (hasKey (searchBody rk props token starting) "properties" = true ↔
      props ≠ []) := by
  rcases token with _ | t
  · by_cases hp : props = [] <;> rcases starting with _ | v <;>
      simp [searchBody, pyLookup, hasKey, pyLookup_append, hp]
  · by_cases ht : t = ""
    · subst ht
      by_cases hp : props = [] <;> rcases starting with _ | v <;>
        simp [searchBody, pyLookup, hasKey, pyLookup_append, hp]
    · by_cases hp : props = [] <;> rcases starting with _ | v <;>
        simp [searchBody, pyLookup, hasKey, pyLookup_append, hp, ht]

/-- Claim C5 (amended): every search POST body has a single-element
ascending `sorts` on the replication key and the literal `limit` 100
whatever the configured `limit` option; it has `after` exactly when
the cursor is truthy (non-null and non-empty, Python truthiness), with
the cursor as value; and it has `properties` exactly when the resolved
property list is non-empty. -/
theorem search_body_shape (rk : String) (cfg : Config)
    (checkpoint : Option PyDatetime) (props : List String)
    (token : Option String) (b : List (String × Json))
    (h : prepare_request_payload false REPLICATION_INCREMENTAL rk
      cfg checkpoint props token = .ok (some (Json.obj b))) :
    pyLookup b "sorts" =
      some (Json.arr [Json.obj
        [("propertyName", Json.str rk),
         ("direction", Json.str "ASCENDING")]]) ∧
    pyLookup b "limit" = some (Json.num 100) ∧
    (hasKey b "after" = true ↔ token ≠ none ∧ token ≠ some "") ∧
    (∀ t, token = some t → t ≠ "" →
      pyLookup b "after" = some (Json.str t)) ∧
    (hasKey b "properties" = true ↔ props ≠ []) := by
  dsimp only [prepare_request_payload] at h
  rw [if_neg (by simp)] at h
  rcases hrs : resolveStartingValue cfg checkpoint with e | starting <;>
    rw [hrs] at h
  · cases h
  · simp only [Except.ok.injEq, Option.some.injEq, Json.obj.injEq] at h
    subst h
    exact searchBody_lookup rk props token starting

/-- Claim C5, counterexample: a non-null but empty-string cursor is
falsy in Python, so the body carries no `after` key although the
cursor is not null. -/
theorem search_body_after_empty_token :
    (some "" : Option String) ≠ none ∧
    prepare_request_payload false REPLICATION_INCREMENTAL "hs_lastmodifieddate"
      {} none [] (some "") =
      .ok (some (Json.obj
        [("sorts", Json.arr [Json.obj
            [("propertyName", Json.str "hs_lastmodifieddate"),
             ("direction", Json.str "ASCENDING")]]),
         ("limit", Json.num 100)])) ∧
    hasKey
        [("sorts", Json.arr [Json.obj
            [("propertyName", Json.str "hs_lastmodifieddate"),
             ("direction", Json.str "ASCENDING")]]),
         ("limit", Json.num 100)] "after" = false :=
  ⟨by simp, rfl, rfl⟩

/-- Witness for `search_body_shape` at a concrete incremental request
with one property and a non-empty cursor. -/
theorem search_body_shape_witness :
    pyLookup (searchBody "hs_lastmodifieddate" ["p1"] (some "tok") none)
      "sorts" =
      some (Json.arr [Json.obj
        [("propertyName", Json.str "hs_lastmodifieddate"),
         ("direction", Json.str "ASCENDING")]]) ∧
    pyLookup (searchBody "hs_lastmodifieddate" ["p1"] (some "tok") none)
      "limit" = some (Json.num 100) ∧
    (hasKey (searchBody "hs_lastmodifieddate" ["p1"] (some "tok") none)
        "after" = true ↔
      (some "tok" : Option String) ≠ none ∧
      (some "tok" : Option String) ≠ some "") ∧
    pyLookup (searchBody "hs_lastmodifieddate" ["p1"] (some "tok") none)
      "after" = some (Json.str "tok") ∧
    (hasKey (searchBody "hs_lastmodifieddate" ["p1"] (some "tok") none)
        "properties" = true ↔ (["p1"] : List String) ≠ []) := by
  have X := search_body_shape "hs_lastmodifieddate" {} none ["p1"] (some "tok")
    (searchBody "hs_lastmodifieddate" ["p1"] (some "tok") none) rfl
  exact ⟨X.1, X.2.1, X.2.2.1, X.2.2.2.1 "tok" rfl (by decide), X.2.2.2.2⟩

/-- Claim C3: with no checkpoint and `start_from = "2021-01-01"`, the
body's single filter is GTE with value 1609459200000 (epoch ms); with
neither, the body has no `filterGroups` key; an unparseable
`start_from` is NOT treated as absent — the `except` branch's
`logging.error(..., file=sys.stderr)` call raises `TypeError`, so the
sync aborts instead of continuing (contrary to the intent the `pass`
documents). -/
theorem checkpoint_fallback_chain_eval :
    prepare_request_payload false REPLICATION_INCREMENTAL "hs_lastmodifieddate"
      { start_from := some "2021-01-01" } none [] none =
      .ok (some (Json.obj
        [("sorts", Json.arr [Json.obj
            [("propertyName", Json.str "hs_lastmodifieddate"),
             ("direction", Json.str "ASCENDING")]]),
         ("limit", Json.num 100),
         ("filterGroups", Json.arr [Json.obj [("filters", Json.arr [Json.obj
            [("propertyName", Json.str "hs_lastmodifieddate"),
             ("operator", Json.str "GTE"),
             ("value", Json.num 1609459200000)]])]])])) ∧
    prepare_request_payload false REPLICATION_INCREMENTAL "hs_lastmodifieddate"
      {} none [] none =
      .ok (some (Json.obj (searchBody "hs_lastmodifieddate" [] none none))) ∧
    hasKey (searchBody "hs_lastmodifieddate" [] none none) "filterGroups"
      = false ∧
    prepare_request_payload false REPLICATION_INCREMENTAL "hs_lastmodifieddate"
      { start_from := some "not a date" } none [] none =
      .error PyErr.typeError :=
  ⟨rfl, rfl, rfl, rfl⟩

/-- Claim C6 (amended): the property-listing call raises exactly when
the status is not exactly 200 (201 also raises, see
`get_properties_raises_on_201`), and the message carries both the
status code and the body text. -/
theorem get_properties_error_exact_200 (t : String) (resp : PropsResponse)
    (ht : t ≠ "") :
    (resp.status ≠ 200 →
      (get_properties (some t) none resp).outcome =
        .error (PyErr.runtimeError (propsErrorMsg resp.status resp.text)) ∧
      (toString resp.status).data <:+:
        (propsErrorMsg resp.status resp.text).data ∧
      resp.text.data <:+: (propsErrorMsg resp.status resp.text).data) ∧
    (resp.status = 200 →
      (get_properties (some t) none resp).outcome = .ok resp.names) := by
  constructor
  · intro hs
    refine ⟨by simp [get_properties, ht, hs], ?_, ?_⟩
    · refine ⟨"Could not fetch properties: ".data, (", " ++ resp.text).data, ?_⟩
      simp [propsErrorMsg, String.data_append, List.append_assoc]
    · refine ⟨("Could not fetch properties: " ++ toString resp.status
        ++ ", ").data, [], ?_⟩
      simp [propsErrorMsg, String.data_append, List.append_assoc]
  · intro hs
    simp [get_properties, ht, hs]

/-- Witness for `get_properties_error_exact_200` on a 404 response. -/
theorem get_properties_error_exact_200_witness :
    (get_properties (some "contacts") none ⟨404, "not found", []⟩).outcome =
      .error (PyErr.runtimeError (propsErrorMsg 404 "not found")) ∧
    (toString (404 : Nat)).data <:+: (propsErrorMsg 404 "not found").data ∧
    ("not found" : String).data <:+: (propsErrorMsg 404 "not found").data :=
  (get_properties_error_exact_200 "contacts" ⟨404, "not found", []⟩
    (by decide)).1 (by decide)

/-- Claim C6, counterexample: 201 is a 2xx success, yet the code
(`r.status_code != 200`) raises on it, so "raises exactly when
non-2xx" is false. -/
theorem get_properties_raises_on_201 :
    ((200 : Nat) ≤ 201 ∧ (201 : Nat) < 300) ∧
    (get_properties (some "contacts") none ⟨201, "Created", []⟩).outcome =
      .error (PyErr.runtimeError (propsErrorMsg 201 "Created")) :=
  ⟨by omega, rfl⟩

/-- Claim C10: a failed property-listing call leaves the
`extra_properties` cache unset, so the next call issues the HTTP
request again; a stream with no `properties_object_type` caches the
empty list and never sends a request. -/
theorem get_properties_memoization (t : String) (resp resp2 : PropsResponse)
    (r : PropsResponse) (ht : t ≠ "") (hs : resp.status ≠ 200) :
    (get_properties (some t) none resp).cache = none ∧
    (get_properties (some t) none resp).requested = true ∧
    (get_properties (some t) ((get_properties (some t) none resp).cache)
      resp2).requested = true ∧
    get_properties none none r = ⟨.ok [], some [], false⟩ := by
  have h1 : get_properties (some t) none resp =
      ⟨.error (PyErr.runtimeError (propsErrorMsg resp.status resp.text)),
       none, true⟩ := by
    simp [get_properties, ht, hs]
  refine ⟨by rw [h1], by rw [h1], ?_, rfl⟩
  rw [h1]
  by_cases h2 : resp2.status = 200 <;> simp [get_properties, ht, h2]

/-- Witness for `get_properties_memoization`: a 500 failure is not
cached and the retry issues a request. -/
theorem get_properties_memoization_witness :
    (get_properties (some "contacts") none ⟨500, "oops", []⟩).cache = none ∧
    (get_properties (some "contacts") none ⟨500, "oops", []⟩).requested
      = true ∧
    (get_properties (some "contacts")
      ((get_properties (some "contacts") none ⟨500, "oops", []⟩).cache)
      ⟨200, "", ["a"]⟩).requested = true ∧
    get_properties none none ⟨200, "", ["a"]⟩ = ⟨.ok [], some [], false⟩ :=
  get_properties_memoization "contacts" ⟨500, "oops", []⟩ ⟨200, "", ["a"]⟩
    ⟨200, "", ["a"]⟩ (by decide) (by decide)

end TapHubspot
